import Mathlib

/-!
Verification of the AXO signup-engine backend (src/main.py) against its
specification. The Flask handlers are shallowly embedded as pure Lean
functions: JSON values decoded by Flask/requests are an inductive type,
Python floats are modeled as exact rationals, fallible Python operations
return Except (an .error models an exception), and the per-request handler
state (session cookie, the module-level SETTINGS dict) is passed explicitly.
Wall-clock time (the t field of the market payload) is not modeled; no claim
depends on it.
-/

namespace Axo

/-- A JSON value as decoded by Flask/requests into Python objects
(None, bool, int/float, str, list, dict). Numbers are modeled as exact
rationals; IEEE-754 rounding is outside the model. -/
inductive JValue where
  | null
  | bool (b : Bool)
  | num (q : ℚ)
  | str (s : String)
  | arr (elems : List JValue)
  | obj (fields : List (String × JValue))

/-- Python truthiness of a decoded JSON value: None, False, zero, and empty
string/list/dict are falsy. -/
def JValue.truthy : JValue → Bool
  | .null => false
  | .bool b => b
  | .num q => if q = 0 then false else true
  | .str s => if s = "" then false else true
  | .arr xs => !xs.isEmpty
  | .obj kvs => !kvs.isEmpty

/-- d.get(k) on a Python value: Except.error models the AttributeError raised
when the receiver is not a dict; otherwise some/none reports presence of the
key. Duplicate JSON keys are resolved to the last binding, as Python's json
decoder does. -/
def pyGet : JValue → String → Except Unit (Option JValue)
  | .obj kvs, k => .ok (List.lookup k kvs.reverse)
  | _, _ => .error ()

/-- d.get(k, default). -/
def pyGetD (v : JValue) (k : String) (d : JValue) : Except Unit JValue := do
  let r ← pyGet v k
  pure (r.getD d)

/-- Numeric value of a list of decimal digit characters. -/
def digitsVal (cs : List Char) : ℕ :=
  cs.foldl (fun a c => a * 10 + (c.toNat - 48)) 0

/-- Exponent part of a float literal: optional sign then at least one digit. -/
def parseExpPart : List Char → Option ℤ
  | [] => none
  | '+' :: r => if !r.isEmpty && r.all Char.isDigit then some ((digitsVal r : ℤ)) else none
  | '-' :: r => if !r.isEmpty && r.all Char.isDigit then some (-(digitsVal r : ℤ)) else none
  | r => if r.all Char.isDigit then some ((digitsVal r : ℤ)) else none

/-- Mantissa of a float literal: digits with an optional fractional part,
at least one digit overall. -/
def parseMantissa (cs : List Char) : Option ℚ :=
  let p := cs.span Char.isDigit
  match p.2 with
  | [] => if p.1.isEmpty then none else some ((digitsVal p.1 : ℚ))
  | '.' :: fr =>
    if fr.all Char.isDigit && !(p.1.isEmpty && fr.isEmpty) then
      some ((digitsVal p.1 : ℚ) + (digitsVal fr : ℚ) / ((10 : ℚ) ^ fr.length))
    else none
  | _ => none

/-- Splits a float literal at the first exponent marker e or E. -/
def splitAtExpChar : List Char → List Char × Option (List Char)
  | [] => ([], none)
  | c :: r =>
    if c = 'e' || c = 'E' then ([], some r)
    else
      let p := splitAtExpChar r
      (c :: p.1, p.2)

/-- Unsigned float literal: mantissa with optional exponent. -/
def parseAfterSign (cs : List Char) : Option ℚ :=
  let p := splitAtExpChar cs
  match parseMantissa p.1 with
  | none => none
  | some m =>
    match p.2 with
    | none => some m
    | some ecs =>
      match parseExpPart ecs with
      | none => none
      | some ex => some (m * (10 : ℚ) ^ ex)

/-- Signed float literal. -/
def parseSigned : List Char → Option ℚ
  | '+' :: r => parseAfterSign r
  | '-' :: r => (parseAfterSign r).map (fun q => -q)
  | r => parseAfterSign r

/-- Characters of a string with leading and trailing whitespace removed. -/
def stripChars (cs : List Char) : List Char :=
  ((cs.dropWhile Char.isWhitespace).reverse.dropWhile Char.isWhitespace).reverse

/-- str.strip() of Python, over the common whitespace characters. -/
def pyStrip (s : String) : String := String.mk (stripChars s.data)

/-- Python float(str) on the common decimal grammar: surrounding whitespace is
stripped, then an optional sign, digits with optional fractional part and
optional exponent. The inf/nan spellings and underscore digit separators are
outside this model; none is a value any claim exercises. -/
def pyFloatOfString (s : String) : Option ℚ :=
  parseSigned (stripChars s.data)

/-- Python float(v) applied to a decoded JSON value; Except.error models the
TypeError/ValueError float() raises on None, lists, dicts and non-numeric
strings. float(True) is 1.0 and float(False) is 0.0. -/
def pyFloat : JValue → Except Unit ℚ
  | .num q => .ok q
  | .bool b => .ok (if b then 1 else 0)
  | .str s =>
    match pyFloatOfString s with
    | some q => .ok q
    | none => .error ()
  | _ => .error ()

/-- Outcome of the single requests.get call api_market makes to CoinGecko
(src/main.py lines 113-123): either the call raises (timeout, connection
error), or it returns an HTTP response carrying the r.ok success flag and a
body that r.json() either decodes or raises on. -/
inductive FetchOutcome where
  | netError
  | httpResponse (ok : Bool) (body : Except Unit JValue)

/-- Body of the try block, src/main.py lines 111-129: the computed xrp_usd.
Except.error models an exception reaching the handler at line 131. When r.ok
is false the if-body is skipped and xrp_usd keeps its initial 0.0; a missing
or falsy usd field becomes 0.0 through the `or 0.0` fallback; data.get on a
non-dict raises AttributeError; float() of a non-numeric value raises. -/
def tryFetchXrp : FetchOutcome → Except Unit ℚ
  | .netError => .error ()
  | .httpResponse ok body =>
    if ok then
      match body with
      | .error _ => .error ()
      | .ok data => do
        let ripple ← pyGetD data ("ripple") (.obj [])
        let usd ← pyGet ripple ("usd")
        match usd with
        | some v => if v.truthy then pyFloat v else .ok 0
        | none => .ok 0
    else .ok 0

/-- Lines 107-133 of src/main.py: xrp_usd and source after the try/except.
An exception in the try block is caught and only flips source to
"coingecko_error", leaving xrp_usd at its initial 0.0. -/
def fetchBlock (o : FetchOutcome) : ℚ × String :=
  match tryFetchXrp o with
  | .ok v => (v, "coingecko")
  | .error _ => (0, "coingecko_error")

/-- The JSON payload api_market returns (the wall-clock field t is not
modeled). -/
structure MarketResponse where
  axo_usd : ℚ
  xrp_usd : ℚ
  axo_per_xrp : ℚ
  source : String
deriving DecidableEq

/-- The module-level SETTINGS dict of src/main.py lines 35-67, with the value
types it actually holds: the boot defaults have these types and
admin_config_save normalizes every write to them. -/
structure Settings where
  signup_bonus : ℤ
  referral_reward : ℤ
  require_trustline : Bool
  axo_price_usd : ℚ
  buy_enabled : Bool
  quick_signup_enabled : Bool
  fee_xrp : ℚ
  vault_addr : String
  daily_cap_axo : ℤ
  max_claims_per_wallet : ℤ
  rate_limit_claims_per_hour : ℤ
  whitelist_addresses : List JValue
  blacklist_addresses : List JValue
  airdrop_paused : Bool
  maintenance_mode : Bool

/-- Boot-time SETTINGS, parameterized by the AXO_PRICE and XRP_VAULT_ADDR
environment values (lines 25, 27, 35-67). -/
def initialSettings (envAxoPrice : ℚ) (envVault : String) : Settings :=
  { signup_bonus := 1000
  , referral_reward := 300
  , require_trustline := true
  , axo_price_usd := envAxoPrice
  , buy_enabled := true
  , quick_signup_enabled := false
  , fee_xrp := 1/4
  , vault_addr := envVault
  , daily_cap_axo := 0
  , max_claims_per_wallet := 1
  , rate_limit_claims_per_hour := 6
  , whitelist_addresses := []
  , blacklist_addresses := []
  , airdrop_paused := false
  , maintenance_mode := false }

/-- SETTINGS at boot with the default environment (AXO_PRICE defaults to
"0.01", XRP_VAULT_ADDR to the empty string). -/
def defaultSettings : Settings := initialSettings (1/100) ("")

/-- The api_market handler, src/main.py lines 91-157, in an exception monad:
a .error result would be an exception escaping the handler. The only
operations that can raise are the provider call and the parsing of its
response, all inside the try block (tryFetchXrp); the axo_usd read applies
float() to a value that is always already a float, and the cross-rate
division is guarded. The expression float(SETTINGS.get("axo_price_usd") or
0.01) substitutes 0.01 whenever the stored price is falsy, i.e. equal to
0.0. -/
def api_market_exc (s : Settings) (o : FetchOutcome) : Except Unit MarketResponse :=
  let axo_usd : ℚ := if s.axo_price_usd = 0 then 1/100 else s.axo_price_usd
  let p := fetchBlock o
  let axo_per_xrp : ℚ := if 0 < axo_usd ∧ 0 < p.1 then p.1 / axo_usd else 0
  .ok { axo_usd := axo_usd, xrp_usd := p.1, axo_per_xrp := axo_per_xrp, source := p.2 }

/-- The api_market response. The error branch is unreachable (the
exception-safety theorem for C4 proves api_market_exc always returns ok). -/
def api_market (s : Settings) (o : FetchOutcome) : MarketResponse :=
  match api_market_exc s o with
  | .ok m => m
  | .error _ => { axo_usd := 0, xrp_usd := 0, axo_per_xrp := 0, source := "" }

/-- A successful CoinGecko response quoting XRP at q USD, the payload shape
of end-to-end scenario 1 of the spec. -/
def coingeckoOk (q : ℚ) : FetchOutcome :=
  .httpResponse true (.ok (.obj [(("ripple" : String), .obj [(("usd" : String), .num q)])]))

/-- The per-client session cookie: admin_authed is the only key the code
uses, set only to True and removed by logout (absent reads as falsy). -/
structure Session where
  admin_authed : Bool
deriving DecidableEq

/-- An HTTP response: status code, a tag standing for the JSON error/ok body,
and the market payload when the endpoint returns one. -/
structure HttpResp where
  status : ℕ
  tag : String
  market : Option MarketResponse := none
deriving DecidableEq

/-- Line 167 of src/main.py: (request.json or ...).get("pin", "") with an
empty-dict fallback; .get on a truthy non-dict body raises AttributeError
(modeled as .error), which Flask turns into a 500 response. -/
def extractedPin (body : JValue) : Except Unit JValue :=
  pyGetD (if body.truthy then body else JValue.obj []) ("pin") (JValue.str (""))

/-- Python == between a decoded JSON value and a str: values of other types
never compare equal to a string. -/
def pyEqStr : JValue → String → Bool
  | .str t, s => if t = s then true else false
  | _, _ => false

/-- The admin_login handler, src/main.py lines 163-179. envPin is the
ADMIN_PIN environment value fixed at boot (line 23). -/
def admin_login (envPin : String) (body : JValue) (sess : Session) :
    Session × HttpResp :=
  match extractedPin body with
  | .error _ => (sess, { status := 500, tag := "internal_error" })
  | .ok pin =>
    if envPin = "" then (sess, { status := 500, tag := "pin_not_configured" })
    else if pin.truthy && pyEqStr pin envPin then
      ({ admin_authed := true }, { status := 200, tag := "ok" })
    else (sess, { status := 401, tag := "bad_pin" })

/-- The admin_logout handler, lines 183-189: pops the flag. -/
def admin_logout (_sess : Session) : Session × HttpResp :=
  ({ admin_authed := false }, { status := 200, tag := "ok" })

/-- The GET /api/admin/config handler, lines 193-201. -/
def admin_config_get (sess : Session) : HttpResp :=
  if sess.admin_authed then { status := 200, tag := "data" }
  else { status := 401, tag := "unauthorized" }

/-- as_bool, line 215: Python bools pass through, otherwise
str(v).lower() == "true". str of None, a number, a list or a dict is never
the word true, so only the string case can produce true; an absent key
(None) yields False. -/
def as_bool : Option JValue → Bool
  | some (.bool b) => b
  | some (.str s) => if s.toLower = "true" then true else false
  | _ => false

/-- as_float, lines 217-221: try float(v) except return the default. An
absent key is None and float(None) raises, so it returns the default. -/
def as_float (v : Option JValue) (d : ℚ) : ℚ :=
  match v with
  | none => d
  | some j =>
    match pyFloat j with
    | .ok q => q
    | .error _ => d

/-- int() of a float truncates toward zero, as Lean Int division does. -/
def pyTruncInt (q : ℚ) : ℤ := q.num / (q.den : ℤ)

/-- as_int, lines 223-227: try int(float(v)) except return the default. -/
def as_int (v : Option JValue) (d : ℤ) : ℤ :=
  match v with
  | none => d
  | some j =>
    match pyFloat j with
    | .ok q => pyTruncInt q
    | .error _ => d

/-- str(v) for the non-list branch of as_list_csv. Exact Python float
formatting is not expressible in the rational model; numbers and containers
are rendered in a simple form, which no claim depends on (the claims only
exercise the absent-key and list branches). -/
def pyStr : JValue → String
  | .null => "None"
  | .bool b => if b then "True" else "False"
  | .num q => toString q
  | .str s => s
  | .arr _ => "[...]"
  | .obj _ => "(dict)"

/-- as_list_csv, lines 229-235: falsy (including an absent key) becomes the
empty list, a list is stored as-is, anything else is str()-ed, split on
commas, stripped, and empties dropped. -/
def as_list_csv : Option JValue → List JValue
  | none => []
  | some v =>
    if !v.truthy then []
    else
      match v with
      | .arr xs => xs
      | w =>
        ((((pyStr w).splitOn (",")).map pyStrip).filter
          (fun x => !(x == ""))).map JValue.str

/-- Line 255: body.get("vault_addr", SETTINGS-prior).strip(). When the key is
absent the prior value is re-stripped; a present non-string value has no
.strip() and raises AttributeError (modeled as .error). -/
def vaultValue (v : Option JValue) (prior : String) : Except Unit String :=
  match v with
  | none => .ok (pyStrip prior)
  | some (.str s) => .ok (pyStrip s)
  | some _ => .error ()

/-- The SETTINGS.update call of admin_config_save, lines 239-271. The
argument dict is fully evaluated before update runs, so an exception while
building it (a non-dict body, or a non-string vault_addr) leaves SETTINGS
untouched; that exception is modeled as .error. -/
def updateSettings (st : Settings) (body : JValue) : Except Unit Settings := do
  let sb ← pyGet body ("signup_bonus")
  let rr ← pyGet body ("referral_reward")
  let rt ← pyGet body ("require_trustline")
  let ap ← pyGet body ("axo_price_usd")
  let be ← pyGet body ("buy_enabled")
  let qs ← pyGet body ("quick_signup_enabled")
  let fx ← pyGet body ("fee_xrp")
  let va ← pyGet body ("vault_addr")
  let dc ← pyGet body ("daily_cap_axo")
  let mc ← pyGet body ("max_claims_per_wallet")
  let rl ← pyGet body ("rate_limit_claims_per_hour")
  let wl ← pyGet body ("whitelist_addresses")
  let bl ← pyGet body ("blacklist_addresses")
  let apd ← pyGet body ("airdrop_paused")
  let mm ← pyGet body ("maintenance_mode")
  let vaNew ← vaultValue va st.vault_addr
  pure
    { signup_bonus := as_int sb st.signup_bonus
    , referral_reward := as_int rr st.referral_reward
    , require_trustline := as_bool rt
    , axo_price_usd := as_float ap st.axo_price_usd
    , buy_enabled := as_bool be
    , quick_signup_enabled := as_bool qs
    , fee_xrp := as_float fx st.fee_xrp
    , vault_addr := vaNew
    , daily_cap_axo := as_int dc st.daily_cap_axo
    , max_claims_per_wallet := as_int mc st.max_claims_per_wallet
    , rate_limit_claims_per_hour := as_int rl st.rate_limit_claims_per_hour
    , whitelist_addresses := as_list_csv wl
    , blacklist_addresses := as_list_csv bl
    , airdrop_paused := as_bool apd
    , maintenance_mode := as_bool mm }

/-- The POST /api/admin/config handler, lines 205-281. The admin_required
decorator answers 401 before the body is read when the session lacks the
flag. request.get_json(force=True, silent=True) yields None on an
unparsable body (raw = none), and falsy decodes fall back to an empty
dict. The mirroring of axo_price_usd into the module global AXO_PRICE_USD
(lines 275-277) is not modeled: that global is never read again after
boot. -/
def admin_config_save (st : Settings) (sess : Session) (raw : Option JValue) :
    Settings × HttpResp :=
  if !sess.admin_authed then (st, { status := 401, tag := "unauthorized" })
  else
    let body :=
      match raw with
      | none => JValue.obj []
      | some v => if v.truthy then v else JValue.obj []
    match updateSettings st body with
    | .ok st2 => (st2, { status := 200, tag := "ok" })
    | .error _ => (st, { status := 500, tag := "internal_error" })

/-- The requests a client can make to the endpoints in scope. A market
request carries the provider outcome of the CoinGecko call made while
serving it; login and configSave carry the decoded request body (none for
configSave models an unparsable body under silent=True). -/
inductive Request where
  | market (o : FetchOutcome)
  | login (body : JValue)
  | logout
  | configGet
  | configSave (raw : Option JValue)

/-- Server-side state visible to the handlers: the client's session and the
module-level SETTINGS. The source keeps no other mutable state; in
particular api_market stores nothing between calls. -/
structure SrvState where
  sess : Session
  settings : Settings

/-- One request: the handler dispatched by route, the successor state and
the response. -/
def step (envPin : String) (st : SrvState) : Request → SrvState × HttpResp
  | .market o =>
    (st, { status := 200, tag := "market", market := some (api_market st.settings o) })
  | .login body =>
    let r := admin_login envPin body st.sess
    ({ st with sess := r.1 }, r.2)
  | .logout =>
    let r := admin_logout st.sess
    ({ st with sess := r.1 }, r.2)
  | .configGet => (st, admin_config_get st.sess)
  | .configSave raw =>
    let r := admin_config_save st.settings st.sess raw
    ({ st with settings := r.1 }, r.2)

/-- A sequence of requests from the initial state, with the response list. -/
def run (envPin : String) (st : SrvState) : List Request → SrvState × List HttpResp
  | [] => (st, [])
  | r :: rs =>
    ((run envPin (step envPin st r).1 rs).1,
      (step envPin st r).2 :: (run envPin (step envPin st r).1 rs).2)

/-- A fresh server at boot with the default environment: new session (no
admin flag), default SETTINGS. -/
def bootState : SrvState := { sess := { admin_authed := false }, settings := defaultSettings }

/-- The ADMIN_PIN default: the environment variable is unset, so the boot
value is the empty string (line 23). -/
def emptyPin : String := ""

/-- Characterization of the api_market response in terms of fetchBlock and
the settings, unfolding the definition. -/
theorem api_market_eq (s : Settings) (o : FetchOutcome) :
    api_market s o =
      { axo_usd := if s.axo_price_usd = 0 then 1/100 else s.axo_price_usd
      , xrp_usd := (fetchBlock o).1
      , axo_per_xrp :=
          if 0 < (if s.axo_price_usd = 0 then (1 : ℚ)/100 else s.axo_price_usd)
              ∧ 0 < (fetchBlock o).1 then
            (fetchBlock o).1 / (if s.axo_price_usd = 0 then 1/100 else s.axo_price_usd)
          else 0
      , source := (fetchBlock o).2 } := rfl

/-- A fetch whose try block returns v yields the coingecko label. -/
theorem fetchBlock_ok (o : FetchOutcome) (v : ℚ) (h : tryFetchXrp o = Except.ok v) :
    fetchBlock o = (v, "coingecko") := by
  unfold fetchBlock
  rw [h]

/-- A fetch whose try block raises yields price 0 and the error label. -/
theorem fetchBlock_err (o : FetchOutcome) (h : tryFetchXrp o = Except.error ()) :
    fetchBlock o = (0, "coingecko_error") := by
  unfold fetchBlock
  rw [h]

/-- A well-formed CoinGecko success quoting a nonzero price parses to that
price. -/
theorem tryFetchXrp_coingeckoOk (q : ℚ) (hq : q ≠ 0) :
    tryFetchXrp (coingeckoOk q) = Except.ok q := by
  have hskel : tryFetchXrp (coingeckoOk q)
      = if ((JValue.num q).truthy = true) then pyFloat (JValue.num q) else Except.ok 0 := rfl
  rw [hskel]
  simp [JValue.truthy, pyFloat, hq]

/-- C1 (counterexample): the claim that api_market serves a cached snapshot
is false on the code. After a first call whose fetch succeeds with 3.29, a
second call whose fetch raises returns price 0 with source coingecko_error,
not the previously observed 3.29 labeled CACHED: there is no snapshot. -/
theorem c1_cached_read_counterexample :
    ((run emptyPin bootState
        [Request.market (coingeckoOk (329/100)), Request.market FetchOutcome.netError]).2.map
      (fun r => r.market.map (fun m => (m.xrp_usd, m.source))))
      = [some ((329 : ℚ)/100, "coingecko"), some ((0 : ℚ), "coingecko_error")]
    ∧ (0 : ℚ) ≠ 329/100 ∧ ("coingecko_error" : String) ≠ "cached"
    ∧ ("coingecko_error" : String) ≠ "CACHED" := by
  have hfb1 : fetchBlock (coingeckoOk (329/100)) = (329/100, "coingecko") :=
    fetchBlock_ok _ _ (tryFetchXrp_coingeckoOk (329/100) (by norm_num))
  have hfb2 : fetchBlock FetchOutcome.netError = (0, "coingecko_error") := rfl
  refine ⟨?_, by norm_num, by decide, by decide⟩
  simp [run, step, api_market_eq, hfb1, hfb2]

/-- C1 (amended): api_market holds no snapshot. Every call performs its own
synchronous provider fetch: the server state is unchanged by a market
request, and the returned price and source label are exactly those of that
call's fetch (source coingecko on a non-raising fetch, coingecko_error when
the fetch raises), independent of any earlier requests. -/
theorem c1_market_fetches_every_call (envPin : String) (st : SrvState) (o : FetchOutcome) :
    (step envPin st (Request.market o)).1 = st
    ∧ (step envPin st (Request.market o)).2.market = some (api_market st.settings o)
    ∧ (api_market st.settings o).xrp_usd = (fetchBlock o).1
    ∧ (api_market st.settings o).source = (fetchBlock o).2 :=
  ⟨rfl, rfl, rfl, rfl⟩

/-- C2 (counterexample): the claim that a failed cycle preserves an earlier
successful fetch's value is false on the code. A first call succeeds with
2.5; a second call hits a non-success status (a failure that does not even
raise) and returns price 0 with source coingecko, not the earlier 2.5. -/
theorem c2_retention_counterexample :
    ((run emptyPin bootState
        [Request.market (coingeckoOk (5/2)),
         Request.market (FetchOutcome.httpResponse false (Except.ok (JValue.obj [])))]).2.map
      (fun r => r.market.map (fun m => (m.xrp_usd, m.source))))
      = [some ((5 : ℚ)/2, "coingecko"), some ((0 : ℚ), "coingecko")]
    ∧ (0 : ℚ) ≠ 5/2 := by
  have hfb1 : fetchBlock (coingeckoOk (5/2)) = (5/2, "coingecko") :=
    fetchBlock_ok _ _ (tryFetchXrp_coingeckoOk (5/2) (by norm_num))
  have hfb2 : fetchBlock (FetchOutcome.httpResponse false (Except.ok (JValue.obj [])))
      = (0, "coingecko") := rfl
  refine ⟨?_, by norm_num⟩
  simp [run, step, api_market_eq, hfb1, hfb2]

/-- Running a request list in two pieces composes. -/
theorem run_append (envPin : String) (st : SrvState) (xs ys : List Request) :
    run envPin st (xs ++ ys)
      = ((run envPin (run envPin st xs).1 ys).1,
          (run envPin st xs).2 ++ (run envPin (run envPin st xs).1 ys).2) := by
  induction xs generalizing st with
  | nil => simp [run]
  | cons x xs ih => simp [run, ih]

/-- C2 (amended): no price snapshot is stored anywhere in the server state,
so a successful fetch's value is not retained: after any history of
requests, a market call whose own fetch raises answers price 0 with source
coingecko_error, never an earlier observed value. -/
theorem c2_no_value_retained (envPin : String) (st : SrvState) (hist : List Request)
    (o : FetchOutcome) (h : tryFetchXrp o = Except.error ()) :
    (run envPin st (hist ++ [Request.market o])).2.getLast?
      = some { status := 200, tag := "market"
             , market := some (api_market (run envPin st hist).1.settings o) }
    ∧ (api_market (run envPin st hist).1.settings o).xrp_usd = 0
    ∧ (api_market (run envPin st hist).1.settings o).source = "coingecko_error" := by
  have hfb : fetchBlock o = (0, "coingecko_error") := fetchBlock_err o h
  refine ⟨?_, ?_, ?_⟩
  · simp [run_append, run, step, List.getLast?_concat]
  · rw [api_market_eq, hfb]
  · rw [api_market_eq, hfb]

/-- C2 (witness): the amended statement applied to the empty history and a
network error, hypotheses discharged by computation. -/
theorem c2_no_value_retained_witness :
    (run emptyPin bootState ([] ++ [Request.market FetchOutcome.netError])).2.getLast?
      = some { status := 200, tag := "market"
             , market := some (api_market (run emptyPin bootState []).1.settings
                 FetchOutcome.netError) }
    ∧ (api_market (run emptyPin bootState []).1.settings FetchOutcome.netError).xrp_usd = 0
    ∧ (api_market (run emptyPin bootState []).1.settings FetchOutcome.netError).source
        = "coingecko_error" :=
  c2_no_value_retained emptyPin bootState [] FetchOutcome.netError rfl

/-- A world with outcomes for two independent price providers. The source's
api_market makes exactly one HTTP request, to CoinGecko (lines 113-123); no
second provider exists anywhere in the code, so providerB is never
consulted while serving the request. -/
structure ProviderWorld where
  providerA : FetchOutcome
  providerB : FetchOutcome

/-- One price fetch cycle of api_market against a two-provider world: the
code only queries provider A (CoinGecko). -/
def api_market_world (s : Settings) (w : ProviderWorld) : MarketResponse :=
  api_market s w.providerA

/-- C3 (counterexample): the claim that when provider A fails and provider B
succeeds the resulting price equals provider B's value is false on the code:
with provider A unreachable and a provider B quoting 3.31, the response
price is 0, not 3.31 — there is no fallback request. -/
theorem c3_fallback_counterexample :
    (api_market_world defaultSettings
        { providerA := FetchOutcome.netError, providerB := coingeckoOk (331/100) }).xrp_usd = 0
    ∧ (0 : ℚ) ≠ 331/100 := by
  refine ⟨rfl, by norm_num⟩

/-- C3 (amended): a price fetch cycle consults only the single CoinGecko
provider: the response is a function of provider A's outcome alone (any two
worlds agreeing on provider A yield identical responses), and when the
CoinGecko call raises, the reported price is 0 with source coingecko_error
regardless of what any second provider would have answered. -/
theorem c3_single_provider_only (s : Settings) (w w2 : ProviderWorld)
    (hA : w.providerA = w2.providerA) :
    api_market_world s w = api_market_world s w2
    ∧ (tryFetchXrp w.providerA = Except.error () →
        (api_market_world s w).xrp_usd = 0
        ∧ (api_market_world s w).source = "coingecko_error") := by
  constructor
  · unfold api_market_world
    rw [hA]
  · intro h
    have hfb := fetchBlock_err w.providerA h
    constructor
    · show (api_market s w.providerA).xrp_usd = 0
      rw [api_market_eq, hfb]
    · show (api_market s w.providerA).source = "coingecko_error"
      rw [api_market_eq, hfb]

/-- C3 (witness): the amended statement at a concrete world whose provider A
is unreachable, hypotheses discharged by computation. -/
theorem c3_single_provider_only_witness :
    api_market_world defaultSettings
        { providerA := FetchOutcome.netError, providerB := coingeckoOk (331/100) }
      = api_market_world defaultSettings
        { providerA := FetchOutcome.netError, providerB := FetchOutcome.netError }
    ∧ (api_market_world defaultSettings
        { providerA := FetchOutcome.netError, providerB := coingeckoOk (331/100) }).source
        = "coingecko_error" := by
  have h := c3_single_provider_only defaultSettings
    { providerA := FetchOutcome.netError, providerB := coingeckoOk (331/100) }
    { providerA := FetchOutcome.netError, providerB := FetchOutcome.netError } rfl
  exact ⟨h.1, (h.2 rfl).2⟩

/-- C4 (confirmed): for every provider outcome — timeout or connection error,
non-success status, undecodable body, missing or non-numeric price field —
the api_market handler raises no exception: the embedded handler always
returns ok, and the failure shows up only in the payload through its source
label. -/
theorem c4_never_raises (s : Settings) (o : FetchOutcome) :
    (api_market_exc s o).isOk = true
    ∧ ((api_market s o).source = "coingecko" ∨ (api_market s o).source = "coingecko_error") := by
  refine ⟨rfl, ?_⟩
  rw [api_market_eq]
  show (fetchBlock o).2 = "coingecko" ∨ (fetchBlock o).2 = "coingecko_error"
  unfold fetchBlock
  cases tryFetchXrp o <;> simp

/-- C5 (confirmed): the cross rate equals xrp_usd / axo_usd whenever both
operands are strictly positive, and is exactly 0 whenever the external
price is 0 (which is also how an absent price is represented) or the local
price operand is 0; and no exception occurs in its computation. -/
theorem c5_cross_rate_guarded (s : Settings) (o : FetchOutcome) :
    (api_market_exc s o).isOk = true
    ∧ (0 < (api_market s o).axo_usd ∧ 0 < (api_market s o).xrp_usd →
        (api_market s o).axo_per_xrp = (api_market s o).xrp_usd / (api_market s o).axo_usd)
    ∧ ((api_market s o).xrp_usd = 0 ∨ (api_market s o).axo_usd = 0 →
        (api_market s o).axo_per_xrp = 0) := by
  have key : (api_market s o).axo_per_xrp =
      if 0 < (api_market s o).axo_usd ∧ 0 < (api_market s o).xrp_usd then
        (api_market s o).xrp_usd / (api_market s o).axo_usd
      else 0 := rfl
  refine ⟨rfl, ?_, ?_⟩
  · intro h
    rw [key, if_pos h]
  · intro h
    rw [key, if_neg]
    rintro ⟨ha, hx⟩
    rcases h with h | h
    · rw [h] at hx
      exact lt_irrefl 0 hx
    · rw [h] at ha
      exact lt_irrefl 0 ha

/-- C5 (witness): the cross-rate equation at a concrete successful fetch,
hypotheses discharged by computation. -/
theorem c5_cross_rate_guarded_witness :
    (api_market defaultSettings (coingeckoOk (329/100))).axo_per_xrp
      = (api_market defaultSettings (coingeckoOk (329/100))).xrp_usd
        / (api_market defaultSettings (coingeckoOk (329/100))).axo_usd := by
  have hfb : fetchBlock (coingeckoOk (329/100)) = (329/100, "coingecko") :=
    fetchBlock_ok _ _ (tryFetchXrp_coingeckoOk (329/100) (by norm_num))
  refine (c5_cross_rate_guarded defaultSettings (coingeckoOk (329/100))).2.1 ?_
  rw [api_market_eq, hfb]
  constructor
  · simp only [defaultSettings, initialSettings]
    norm_num
  · simp only [defaultSettings, initialSettings]
    norm_num

/-- SETTINGS with the local AXO price administratively configured to 0. -/
def settingsZeroPrice : Settings := { defaultSettings with axo_price_usd := 0 }

/-- C6 (counterexample): the claim that a local price configured as 0 makes
api_market report a cross rate of 0 is false on the code: with the stored
price 0 and an external price of 3.29 the reported cross rate is 329, not 0,
because the falsy stored value is coerced to the default 0.01 before the
guard is evaluated. -/
theorem c6_zero_price_counterexample :
    (api_market settingsZeroPrice (coingeckoOk (329/100))).axo_per_xrp = 329
    ∧ (329 : ℚ) ≠ 0 := by
  have hfb : fetchBlock (coingeckoOk (329/100)) = (329/100, "coingecko") :=
    fetchBlock_ok _ _ (tryFetchXrp_coingeckoOk (329/100) (by norm_num))
  refine ⟨?_, by norm_num⟩
  rw [api_market_eq, hfb]
  simp only [settingsZeroPrice, defaultSettings, initialSettings]
  norm_num

/-- C6 (amended): with the local price configured as 0.01 and an external
price of 3.29, api_market reports a cross rate of 329. With the local price
configured as 0, the handler substitutes the default 0.01 for the falsy
stored value, so it again reports 329 (external divided by 0.01), not 0;
in both cases no division error or any other exception occurs. -/
theorem c6_cross_rate_scenarios :
    (api_market defaultSettings (coingeckoOk (329/100))).axo_per_xrp = 329
    ∧ (api_market settingsZeroPrice (coingeckoOk (329/100))).axo_usd = 1/100
    ∧ (api_market settingsZeroPrice (coingeckoOk (329/100))).axo_per_xrp = 329
    ∧ (api_market_exc settingsZeroPrice (coingeckoOk (329/100))).isOk = true
    ∧ (api_market_exc defaultSettings (coingeckoOk (329/100))).isOk = true := by
  have hfb : fetchBlock (coingeckoOk (329/100)) = (329/100, "coingecko") :=
    fetchBlock_ok _ _ (tryFetchXrp_coingeckoOk (329/100) (by norm_num))
  refine ⟨?_, ?_, ?_, rfl, rfl⟩
  · rw [api_market_eq, hfb]
    simp only [defaultSettings, initialSettings]
    norm_num
  · rw [api_market_eq]
    simp only [settingsZeroPrice, defaultSettings, initialSettings]
    norm_num
  · rw [api_market_eq, hfb]
    simp only [settingsZeroPrice, defaultSettings, initialSettings]
    norm_num

/-- The provider failure taxonomy of the spec: network-level failure,
non-success status, undecodable body, missing price field, non-numeric
price field. -/
inductive FailKind where
  | unreachable
  | badStatus
  | malformedJson
  | missingField
  | nonNumeric

/-- A representative provider outcome of each failure kind. -/
def failOutcome : FailKind → FetchOutcome
  | .unreachable => .netError
  | .badStatus => .httpResponse false (.ok (.obj []))
  | .malformedJson => .httpResponse true (.error ())
  | .missingField => .httpResponse true (.ok (.obj []))
  | .nonNumeric =>
    .httpResponse true (.ok (.obj [(("ripple" : String), .obj [(("usd" : String), .str ("n/a"))])]))

/-- The source label api_market actually attaches to each failure kind:
failures that raise inside the try block flip the label to coingecko_error,
while a non-success status or a missing field falls through with the label
still coingecko. -/
def failLabel : FailKind → String
  | .unreachable => "coingecko_error"
  | .badStatus => "coingecko"
  | .malformedJson => "coingecko_error"
  | .missingField => "coingecko"
  | .nonNumeric => "coingecko_error"

/-- C7 (counterexample): the claim that all three failure kinds are treated
identically in the output, with the same source label, is false on the
code: an unreachable provider yields source coingecko_error while a
non-success status yields source coingecko. -/
theorem c7_uniform_label_counterexample :
    (api_market defaultSettings (failOutcome FailKind.unreachable)).source = "coingecko_error"
    ∧ (api_market defaultSettings (failOutcome FailKind.badStatus)).source = "coingecko"
    ∧ ("coingecko_error" : String) ≠ "coingecko" :=
  ⟨rfl, rfl, by decide⟩

/-- C7 (amended): every provider failure kind is absorbed at the provider
call and yields the same reported price 0, but not the same source label:
kinds that raise (network failure, undecodable body, non-numeric price
field) are labeled coingecko_error, while a non-success status or a missing
price field leaves the label coingecko. -/
theorem c7_failures_same_price_distinct_labels (s : Settings) (k : FailKind) :
    (api_market s (failOutcome k)).xrp_usd = 0
    ∧ (api_market s (failOutcome k)).source = failLabel k := by
  cases k <;> exact ⟨rfl, rfl⟩

/-- C8 (confirmed): the admin settings surface is PIN-gated. From any state
whose session lacks the admin flag: a config read answers 401 with the
state (including SETTINGS) unchanged; a config write answers 401 with the
state unchanged for every body; the login request sets the flag exactly
when the submitted pin is a non-empty string equal to the ADMIN_PIN
environment value; and no other request sets the flag. -/
theorem c8_admin_settings_pin_gated (envPin : String) (st : SrvState) (body : JValue)
    (raw : Option JValue) (h : st.sess.admin_authed = false) :
    step envPin st Request.configGet = (st, { status := 401, tag := "unauthorized" })
    ∧ step envPin st (Request.configSave raw) = (st, { status := 401, tag := "unauthorized" })
    ∧ ((step envPin st (Request.login body)).1.sess.admin_authed = true ↔
        ∃ p : String, extractedPin body = Except.ok (JValue.str p) ∧ p ≠ "" ∧ p = envPin)
    ∧ (step envPin st Request.logout).1.sess.admin_authed = false
    ∧ (step envPin st (Request.market FetchOutcome.netError)).1.sess.admin_authed = false := by
  refine ⟨?_, ?_, ?_, rfl, h⟩
  · simp [step, admin_config_get, h]
  · simp [step, admin_config_save, h]
  · show (admin_login envPin body st.sess).1.admin_authed = true ↔ _
    cases hep : extractedPin body with
    | error e =>
      simp [admin_login, hep, h]
    | ok pin =>
      by_cases hemp : envPin = ""
      · subst hemp
        simp [admin_login, hep, h]
      · cases pin with
        | str t =>
          by_cases ht0 : t = ""
          · subst ht0
            simp [admin_login, hep, hemp, JValue.truthy, h]
          · by_cases hte : t = envPin
            · subst hte
              simp [admin_login, hep, hemp, JValue.truthy, pyEqStr, ht0]
            · simp [admin_login, hep, hemp, JValue.truthy, pyEqStr, ht0, hte, h]
        | null => simp [admin_login, hep, hemp, pyEqStr, h]
        | bool b => simp [admin_login, hep, hemp, pyEqStr, h]
        | num q => simp [admin_login, hep, hemp, pyEqStr, h]
        | arr xs => simp [admin_login, hep, hemp, pyEqStr, h]
        | obj kvs => simp [admin_login, hep, hemp, pyEqStr, h]

/-- A login request body submitting the correct pin 1234. -/
def pinBody : JValue := JValue.obj [(("pin" : String), JValue.str ("1234"))]

/-- C8 (witness): with ADMIN_PIN set to 1234, submitting pin 1234 from an
unauthenticated fresh session sets the admin flag; the gating theorem's
hypotheses are discharged by computation. -/
theorem c8_admin_settings_pin_gated_witness :
    (step ("1234") bootState (Request.login pinBody)).1.sess.admin_authed = true := by
  have h := c8_admin_settings_pin_gated ("1234") bootState pinBody none rfl
  exact h.2.2.1.mpr ⟨"1234", rfl, by decide, rfl⟩

/-- With an empty ADMIN_PIN, admin_login leaves the session untouched and
answers 500 for every decoded request body (either the explicit
not-configured 500, or the 500 from the AttributeError a truthy non-dict
body raises at the pin read). -/
theorem admin_login_emptyPin (body : JValue) (sess : Session) :
    (admin_login emptyPin body sess).1 = sess
    ∧ (admin_login emptyPin body sess).2.status = 500 := by
  unfold admin_login emptyPin
  cases extractedPin body <;> simp

/-- One request preserves lockout when ADMIN_PIN is empty: the admin flag
stays false, SETTINGS are unchanged, every login answers 500 and every
config read or write answers 401. -/
theorem step_locked (st : SrvState) (r : Request) (h : st.sess.admin_authed = false) :
    (step emptyPin st r).1.sess.admin_authed = false
    ∧ (step emptyPin st r).1.settings = st.settings
    ∧ (∀ body, r = Request.login body → (step emptyPin st r).2.status = 500)
    ∧ (r = Request.configGet → (step emptyPin st r).2.status = 401)
    ∧ (∀ raw, r = Request.configSave raw → (step emptyPin st r).2.status = 401) := by
  cases r with
  | market o =>
    refine ⟨h, rfl, ?_, ?_, ?_⟩
    · intro body hb
      exact Request.noConfusion hb
    · intro hb
      exact Request.noConfusion hb
    · intro raw hb
      exact Request.noConfusion hb
  | login body =>
    have hl := admin_login_emptyPin body st.sess
    refine ⟨?_, rfl, ?_, ?_, ?_⟩
    · show (admin_login emptyPin body st.sess).1.admin_authed = false
      rw [hl.1]
      exact h
    · intro b hb
      exact hl.2
    · intro hb
      exact Request.noConfusion hb
    · intro raw hb
      exact Request.noConfusion hb
  | logout =>
    refine ⟨rfl, rfl, ?_, ?_, ?_⟩
    · intro body hb
      exact Request.noConfusion hb
    · intro hb
      exact Request.noConfusion hb
    · intro raw hb
      exact Request.noConfusion hb
  | configGet =>
    refine ⟨h, rfl, ?_, ?_, ?_⟩
    · intro body hb
      exact Request.noConfusion hb
    · intro hb
      simp [step, admin_config_get, h]
    · intro raw hb
      exact Request.noConfusion hb
  | configSave raw0 =>
    refine ⟨h, ?_, ?_, ?_, ?_⟩
    · show (admin_config_save st.settings st.sess raw0).1 = st.settings
      simp [admin_config_save, h]
    · intro body hb
      exact Request.noConfusion hb
    · intro hb
      exact Request.noConfusion hb
    · intro raw hb
      show (admin_config_save st.settings st.sess raw0).2.status = 401
      simp [admin_config_save, h]

/-- C9 (confirmed): with ADMIN_PIN unset or empty, from any state whose
session lacks the admin flag, no sequence of requests can ever set the
flag or change SETTINGS, every login request is answered 500 (for every
possible decoded body, the empty-string pin included), and every admin
config read or write is answered 401: the admin config endpoints are
permanently unreachable. -/
theorem c9_empty_pin_lockout (st : SrvState) (reqs : List Request)
    (h : st.sess.admin_authed = false) :
    (run emptyPin st reqs).1.sess.admin_authed = false
    ∧ (run emptyPin st reqs).1.settings = st.settings
    ∧ ∀ pr ∈ reqs.zip (run emptyPin st reqs).2,
        (∀ body, pr.1 = Request.login body → pr.2.status = 500)
        ∧ (pr.1 = Request.configGet → pr.2.status = 401)
        ∧ (∀ raw, pr.1 = Request.configSave raw → pr.2.status = 401) := by
  induction reqs generalizing st with
  | nil =>
    refine ⟨h, rfl, ?_⟩
    intro pr hpr
    simp [run] at hpr
  | cons r rs ih =>
    obtain ⟨h1, h2, h3, h4, h5⟩ := step_locked st r h
    obtain ⟨ih1, ih2, ih3⟩ := ih (step emptyPin st r).1 h1
    refine ⟨ih1, ih2.trans h2, ?_⟩
    intro pr hpr
    have hz : (run emptyPin st (r :: rs)).2
        = (step emptyPin st r).2 :: (run emptyPin (step emptyPin st r).1 rs).2 := rfl
    rw [hz, List.zip_cons_cons] at hpr
    rcases List.mem_cons.mp hpr with heq | hmem
    · subst heq
      exact ⟨h3, h4, h5⟩
    · exact ih3 pr hmem

/-- C9 (witness): the lockout applied to a fresh boot with an empty
ADMIN_PIN and a concrete request list (a login with an empty-string pin,
then a config read), the hypothesis discharged by computation. -/
theorem c9_empty_pin_lockout_witness :
    (run emptyPin bootState
        [Request.login (JValue.obj [(("pin" : String), JValue.str (""))]),
         Request.configGet]).1.sess.admin_authed = false :=
  (c9_empty_pin_lockout bootState
    [Request.login (JValue.obj [(("pin" : String), JValue.str (""))]),
     Request.configGet] rfl).1

/-- SETTINGS whose vault address (as at boot, straight from the environment)
carries surrounding whitespace. -/
def wsVaultSettings : Settings := { defaultSettings with vault_addr := " rVault " }

/-- C10 (counterexample): the claim that vault_addr keeps its prior value
when omitted from the request body is false on the code for a prior value
with surrounding whitespace: the prior value is re-stripped, so an
empty-dict body changes it. -/
theorem c10_vault_restrip_counterexample :
    (updateSettings wsVaultSettings (JValue.obj [])).toOption.map Settings.vault_addr
      = some ("rVault")
    ∧ wsVaultSettings.vault_addr ≠ "rVault" := by
  refine ⟨rfl, by decide⟩

/-- C10 (amended): a request body that omits a key is not neutral for
boolean or list settings: with an empty-dict body every numeric key keeps
its prior value and vault_addr keeps its prior value re-stripped of
surrounding whitespace (hence unchanged whenever it has none), while every
boolean key is overwritten to False and both list keys to the empty
list. -/
theorem c10_omitted_keys_not_neutral (st : Settings) :
    updateSettings st (JValue.obj [])
      = Except.ok
        { signup_bonus := st.signup_bonus
        , referral_reward := st.referral_reward
        , require_trustline := false
        , axo_price_usd := st.axo_price_usd
        , buy_enabled := false
        , quick_signup_enabled := false
        , fee_xrp := st.fee_xrp
        , vault_addr := pyStrip st.vault_addr
        , daily_cap_axo := st.daily_cap_axo
        , max_claims_per_wallet := st.max_claims_per_wallet
        , rate_limit_claims_per_hour := st.rate_limit_claims_per_hour
        , whitelist_addresses := []
        , blacklist_addresses := []
        , airdrop_paused := false
        , maintenance_mode := false } := rfl

end Axo
